import Mathlib

/-!
Verification of `controllers/vaultsecret_controller.go` from mink0/vault-operator.

The Go controller is shallowly embedded: external effects (the Kubernetes API
client, the Vault client library, the environment and the filesystem) are
modelled as fields of explicit environment records, and the three functions of
the source file — `Reconcile`, `VaultReadSecret` and `SecretMake` — are
translated into pure Lean functions over those records.  Go's dynamic
`map[string]interface{}` values are modelled by the inductive `GoValue`, and a
Go `panic` (from a failed type assertion) by the `PanicOr` result type.
-/

set_option autoImplicit false

/-- Outcome of a Go computation that may `panic` (an unchecked type assertion
failing aborts execution instead of producing a value). -/
inductive PanicOr (α : Type) where
  | panicked : PanicOr α
  | ok (val : α) : PanicOr α
deriving DecidableEq, Repr

/-- A dynamic Go value (`interface{}`), as far as `SecretMake` inspects it:
a string, a `map[string]interface{}` (modelled as an association list, keys
unique in a real Go map), or any other runtime type. -/
inductive GoValue where
  | str (s : String) : GoValue
  | strMap (m : List (String × GoValue)) : GoValue
  | other : GoValue

/-- The body of a `*vaultapi.Secret`: its `Data map[string]interface{}` field,
as an association list. -/
abbrev Payload := List (String × GoValue)

/-- UTF-8 encoding of one character, as the Go conversion `[]byte(string)`
produces it. -/
def utf8EncodeChar (c : Char) : List Nat :=
  let n := c.toNat
  if n < 0x80 then [n]
  else if n < 0x800 then [0xC0 ||| (n >>> 6), 0x80 ||| (n &&& 0x3F)]
  else if n < 0x10000 then
    [0xE0 ||| (n >>> 12), 0x80 ||| ((n >>> 6) &&& 0x3F), 0x80 ||| (n &&& 0x3F)]
  else
    [0xF0 ||| (n >>> 18), 0x80 ||| ((n >>> 12) &&& 0x3F),
     0x80 ||| ((n >>> 6) &&& 0x3F), 0x80 ||| (n &&& 0x3F)]

/-- The Go conversion `[]byte(s)`: the UTF-8 bytes of the string. -/
def bytesOfString (s : String) : List Nat :=
  s.data.foldr (fun c acc => utf8EncodeChar c ++ acc) []

/-- Modelled from the spec: the declarative Request schema (spec §6) as the
controller reads it — `api/v1` of the repository is not under `src/`, only its
use in the controller is.  Fields are exactly those the controller
dereferences: `Spec.VaultAddress`, `Spec.Path`, `Spec.Role`, `Spec.AuthPath`. -/
structure VaultSecretSpec where
  VaultAddress : String
  Path : String
  Role : String
  AuthPath : String
deriving DecidableEq, Repr

/-- Modelled from the spec: the `appsv1.VaultSecret` resource with the object
metadata the controller reads (`Name`, `Namespace`, `APIVersion`, `Kind`). -/
structure VaultSecret where
  Name : String
  Namespace : String
  APIVersion : String
  Kind : String
  Spec : VaultSecretSpec
deriving DecidableEq, Repr

/-- `VaultConfig` from the source (the unused `TLSSecret` and `ClientTimeout`
fields are carried along verbatim; `ClientTimeout` as an abstract Nat of
nanoseconds). -/
structure VaultConfig where
  Addr : String
  AuthMethod : String
  AuthPath : String
  Role : String
  Path : String
  SkipVerify : Bool
  TLSSecret : String
  ClientTimeout : Nat
deriving DecidableEq, Repr

/-- The Go zero value `VaultConfig{}`. -/
def VaultConfig.zero : VaultConfig :=
  { Addr := "", AuthMethod := "", AuthPath := "", Role := "", Path := "",
    SkipVerify := false, TLSSecret := "", ClientTimeout := 0 }

def defaultJWTAuthMethod : String := "jwt"
def defaultJWTFile : String := "/var/run/secrets/kubernetes.io/serviceaccount/token"

/-- The `metav1.OwnerReference` that `ctrl.SetControllerReference` records on
the child Secret: it points back at the owning resource and is marked as the
controller reference. -/
structure OwnerReference where
  APIVersion : String
  Kind : String
  Name : String
  Controller : Bool
deriving DecidableEq, Repr

/-- The `core.Secret` object as `SecretMake` builds it: object metadata
(name, namespace, the annotation map) plus the `Data` byte map and the owner
reference installed by `ctrl.SetControllerReference`. -/
structure CoreSecret where
  Name : String
  Namespace : String
  Annotations : List (String × String)
  Data : List (String × List Nat)
  OwnerRef : Option OwnerReference
deriving DecidableEq, Repr

/-- Go map assignment `m[k] = v` on an association list: overwrite the entry
if the key is present, append otherwise. -/
def mapAssign (m : List (String × List Nat)) (k : String) (v : List Nat) :
    List (String × List Nat) :=
  if (m.lookup k).isSome then
    m.map (fun p => if p.1 = k then (k, v) else p)
  else
    m ++ [(k, v)]

/-- The inner loop of `SecretMake`: `for kk, vv := range v.(map[string]interface{})`
with the unchecked assertion `vv.(string)`; a non-string value panics. -/
def secretMakeInner (acc : List (String × List Nat)) :
    List (String × GoValue) → PanicOr (List (String × List Nat))
  | [] => .ok acc
  | (kk, vv) :: rest =>
    match vv with
    | .str s => secretMakeInner (mapAssign acc kk (bytesOfString s)) rest
    | _ => .panicked

/-- The outer loop of `SecretMake`: `for k, v := range secret.Data`, entering
the inner loop when `k == "data"` after the unchecked assertion
`v.(map[string]interface{})`. -/
def secretMakeOuter (acc : List (String × List Nat)) :
    Payload → PanicOr (List (String × List Nat))
  | [] => .ok acc
  | (k, v) :: rest =>
    if k = "data" then
      match v with
      | .strMap inner =>
        match secretMakeInner acc inner with
        | .panicked => .panicked
        | .ok acc2 => secretMakeOuter acc2 rest
      | _ => .panicked
    else
      secretMakeOuter acc rest

/-- The `secObjData` computation of `SecretMake`: empty when the payload
pointer is nil, otherwise the double loop over `secret.Data`. -/
def secretMakeData : Option Payload → PanicOr (List (String × List Nat))
  | none => .ok []
  | some p => secretMakeOuter [] p

/-- `ctrl.SetControllerReference(es, s, r.Scheme)`: the controller-runtime
library records an owner reference with the owner's group-version-kind and
name and `Controller: true` (the returned error is ignored by the source;
scheme resolution of the one registered type is modelled as succeeding). -/
def setControllerReference (es : VaultSecret) : OwnerReference :=
  { APIVersion := es.APIVersion, Kind := es.Kind, Name := es.Name,
    Controller := true }

/-- `SecretMake` from the source: builds the child Secret value from the
VaultSecret resource and the (possibly nil) Vault payload, and returns it
together with the literal `nil` error of `return s, nil`. -/
def SecretMake (es : VaultSecret) (secret : Option Payload) :
    PanicOr (CoreSecret × Option String) :=
  match secretMakeData secret with
  | .panicked => .panicked
  | .ok secObjData =>
    .ok ({ Name := es.Name,
           Namespace := es.Namespace,
           Annotations := [(es.APIVersion, es.Kind)],
           Data := secObjData,
           OwnerRef := some (setControllerReference es) }, none)

/-- The environment `VaultReadSecret` runs in: construction of the Vault
client (which can fail before any network traffic), the process environment,
the filesystem, and the two network exchanges of the Vault client library. -/
structure VaultEnv where
  /-- Result of `newVaultClient`: `some msg` when `DefaultConfig`/`ConfigureTLS`/
  `NewClient` fails, `none` when the client is constructed. -/
  newClientErr : Option String
  /-- `os.Getenv` (absent variables read as `""`, as in Go). -/
  getenv : String → String
  /-- `ioutil.ReadFile`, composed with Go's `string(jwt)` conversion. -/
  readFile : String → Except String String
  /-- `client.Logical().Write(loginPath, {jwt, role})`, returning the client
  token `secret.Auth.ClientToken` on success. -/
  login : String → String → String → Except String String
  /-- `client.Logical().Read(path)` under the given client token; a missing
  path yields `.ok none` (the Vault client returns a nil Secret and nil
  error there). -/
  readPath : String → String → Except String (Option Payload)

/-- Which step of `VaultReadSecret` produced an error. -/
inductive FetchErr where
  | clientInit (msg : String) : FetchErr
  | unsupportedAuthMethod (method : String) : FetchErr
  | tokenRead (msg : String) : FetchErr
  | loginFail (msg : String) : FetchErr
  | readFail (msg : String) : FetchErr
deriving DecidableEq, Repr

/-- The error string carried by a `FetchErr`, matching the source's messages. -/
def FetchErr.message : FetchErr → String
  | .clientInit m => m
  | .unsupportedAuthMethod m => "unsupported Auth method: " ++ m
  | .tokenRead m => m
  | .loginFail m => m
  | .readFail m => m

/-- An error of the authentication phase: identity-token read failure,
unsupported auth method, or login-exchange failure (spec §7 `AuthFailure`). -/
def FetchErr.isAuthClass : FetchErr → Bool
  | .unsupportedAuthMethod _ => true
  | .tokenRead _ => true
  | .loginFail _ => true
  | _ => false

/-- Result of `VaultReadSecret`, together with which network exchanges were
attempted. -/
structure VaultReadOutcome where
  result : Except FetchErr (Option Payload)
  loginAttempted : Bool
  readAttempted : Bool

/-- The `jwtFile` selection of `VaultReadSecret`: start from the default path,
override with `KUBERNETES_SERVICE_ACCOUNT_TOKEN` when non-empty, else with
`VAULT_JWT_FILE` when non-empty. -/
def jwtFileChoice (env : VaultEnv) : String :=
  if env.getenv "KUBERNETES_SERVICE_ACCOUNT_TOKEN" ≠ "" then
    env.getenv "KUBERNETES_SERVICE_ACCOUNT_TOKEN"
  else if env.getenv "VAULT_JWT_FILE" ≠ "" then
    env.getenv "VAULT_JWT_FILE"
  else defaultJWTFile

/-- `VaultReadSecret` from the source: construct the client, gate on the auth
method, read the identity token, perform the login exchange, then the read
exchange. -/
def VaultReadSecret (config : VaultConfig) (env : VaultEnv) : VaultReadOutcome :=
  match env.newClientErr with
  | some e => ⟨.error (.clientInit e), false, false⟩
  | none =>
    if config.AuthMethod ≠ defaultJWTAuthMethod then
      ⟨.error (.unsupportedAuthMethod config.AuthMethod), false, false⟩
    else
      match env.readFile (jwtFileChoice env) with
      | .error e => ⟨.error (.tokenRead e), false, false⟩
      | .ok jwt =>
        match env.login ("auth/" ++ config.AuthPath ++ "/login") jwt config.Role with
        | .error e => ⟨.error (.loginFail e), true, false⟩
        | .ok clientToken =>
          match env.readPath clientToken config.Path with
          | .error e => ⟨.error (.readFail e), true, true⟩
          | .ok d => ⟨.ok d, true, true⟩

/-- A failed `r.Get`: `apierrors.IsNotFound` distinguishes the two cases. -/
inductive GetErr where
  | notFound (msg : String) : GetErr
  | other (msg : String) : GetErr
deriving DecidableEq, Repr

/-- The environment one `Reconcile` invocation runs in: the two `r.Get`
results, the Vault-side environment, and the result of `r.Client.Create`. -/
structure ReconcileEnv where
  /-- `r.Get` of the `appsv1.VaultSecret` named by the request. -/
  getVaultSecret : Except GetErr VaultSecret
  /-- `r.Get` of the child `core.Secret` with the same namespaced name
  (its content is not inspected when found). -/
  getChildSecret : Except GetErr Unit
  vault : VaultEnv
  /-- `r.Client.Create(ctx, secret)`: `some msg` on failure. -/
  createErr : Option String

/-- An error returned by `Reconcile` (the error component of
`(ctrl.Result, error)`), tagged by the return site in the source. -/
inductive RecErr where
  | getRequest (msg : String) : RecErr
  | getChild (msg : String) : RecErr
  | secretMakeFail (msg : String) : RecErr
  | createFail (msg : String) : RecErr
deriving DecidableEq, Repr

/-- What one `Reconcile` invocation returned and which side effects it
performed. -/
structure ReconcileOutcome where
  /-- The `Requeue` flag of the returned `ctrl.Result`. -/
  requeue : Bool
  /-- The returned error. -/
  err : Option RecErr
  /-- Whether `VaultReadSecret` was invoked. -/
  vaultReadCalled : Bool
  /-- Whether the login exchange was attempted. -/
  loginAttempted : Bool
  /-- Whether `r.Client.Create` was invoked. -/
  createCalled : Bool
  /-- The Secret passed to `r.Client.Create`, when it was invoked. -/
  createdSecret : Option CoreSecret
deriving DecidableEq, Repr

/-- The Vault config initialization of `Reconcile` (lines 90-98): zero value,
then address/path/role from the Spec, auth method fixed to `jwt`, auth path
`kubernetes` unless the Spec overrides it. -/
def reconcileConfig (vs : VaultSecret) : VaultConfig :=
  { VaultConfig.zero with
    Addr := vs.Spec.VaultAddress,
    Path := vs.Spec.Path,
    Role := vs.Spec.Role,
    AuthMethod := defaultJWTAuthMethod,
    AuthPath := if vs.Spec.AuthPath.length > 0 then vs.Spec.AuthPath else "kubernetes" }

/-- The `secData` value reaching `SecretMake` inside `Reconcile`: the fetched
payload, except that every `VaultReadSecret` error leaves it nil (all the
error returns of `VaultReadSecret` are `return nil, err`, and `Reconcile`
only logs the error). -/
def reconcileSecData (vs : VaultSecret) (venv : VaultEnv) : Option Payload :=
  match (VaultReadSecret (reconcileConfig vs) venv).result with
  | .error _ => none
  | .ok d => d

/-- `Reconcile` from the source.  Load the VaultSecret (absorbing not-found),
look up the child Secret, and when it is absent: fetch from Vault (an error is
logged, `secData` stays nil), build the Secret with `SecretMake`, create it,
and requeue on success. -/
def Reconcile (env : ReconcileEnv) : PanicOr ReconcileOutcome :=
  match env.getVaultSecret with
  | .error e =>
    .ok { requeue := false,
          err := match e with
                 | .notFound _ => none
                 | .other m => some (.getRequest m),
          vaultReadCalled := false, loginAttempted := false,
          createCalled := false, createdSecret := none }
  | .ok vaultSecret =>
    let config := reconcileConfig vaultSecret
    match env.getChildSecret with
    | .error (.other m) =>
      .ok { requeue := false, err := some (.getChild m),
            vaultReadCalled := false, loginAttempted := false,
            createCalled := false, createdSecret := none }
    | .error (.notFound _) =>
      let fetch := VaultReadSecret config env.vault
      let secData : Option Payload := reconcileSecData vaultSecret env.vault
      match SecretMake vaultSecret secData with
      | .panicked => .panicked
      | .ok (secret, mkErr) =>
        match mkErr with
        | some m =>
          .ok { requeue := false, err := some (.secretMakeFail m),
                vaultReadCalled := true, loginAttempted := fetch.loginAttempted,
                createCalled := false, createdSecret := none }
        | none =>
          match env.createErr with
          | some m =>
            .ok { requeue := false, err := some (.createFail m),
                  vaultReadCalled := true, loginAttempted := fetch.loginAttempted,
                  createCalled := true, createdSecret := some secret }
          | none =>
            .ok { requeue := true, err := none,
                  vaultReadCalled := true, loginAttempted := fetch.loginAttempted,
                  createCalled := true, createdSecret := some secret }
    | .ok _ =>
      .ok { requeue := false, err := none,
            vaultReadCalled := false, loginAttempted := false,
            createCalled := false, createdSecret := none }

/-! ## Concrete fixtures (used by witnesses and counterexamples) -/

/-- The end-to-end example Request of spec §8. -/
def vs0 : VaultSecret :=
  { Name := "mysecret", Namespace := "default",
    APIVersion := "apps.vault.op/v1", Kind := "VaultSecret",
    Spec := { VaultAddress := "http://vault:8200", Path := "secret/test",
              Role := "vault-op", AuthPath := "kubernetes" } }

/-- A Vault environment where every step succeeds and the read returns
`{data: {"password": "hunter2"}}`. -/
def venvOk : VaultEnv :=
  { newClientErr := none
    getenv := fun _ => ""
    readFile := fun _ => .ok "tok-123"
    login := fun _ _ _ => .ok "sess-456"
    readPath := fun _ _ => .ok (some [("data", .strMap [("password", .str "hunter2")])]) }

def tokenReadMsg : String :=
  "open /var/run/secrets/kubernetes.io/serviceaccount/token: no such file or directory"

/-- A Vault environment where reading the identity-token file fails. -/
def venvTokenFail : VaultEnv :=
  { venvOk with readFile := fun _ => .error tokenReadMsg }

def notFoundMsg : String := "secrets \x22mysecret\x22 not found"

/-- Reconcile environment: child Secret already exists. -/
def envFound : ReconcileEnv :=
  { getVaultSecret := .ok vs0, getChildSecret := .ok (),
    vault := venvOk, createErr := none }

/-- Reconcile environment: child Secret absent, Vault fetch succeeds,
create succeeds (the end-to-end scenario of spec §8). -/
def envOk : ReconcileEnv :=
  { getVaultSecret := .ok vs0, getChildSecret := .error (.notFound notFoundMsg),
    vault := venvOk, createErr := none }

/-- Reconcile environment: child Secret absent, identity-token read fails,
create succeeds. -/
def envTokenFail : ReconcileEnv :=
  { envOk with vault := venvTokenFail }

/-- The child Secret that `envTokenFail` ends up creating: empty data. -/
def secEmpty : CoreSecret :=
  { Name := "mysecret", Namespace := "default",
    Annotations := [("apps.vault.op/v1", "VaultSecret")],
    Data := [],
    OwnerRef := some { APIVersion := "apps.vault.op/v1", Kind := "VaultSecret",
                       Name := "mysecret", Controller := true } }

/-- The child Secret created on the successful end-to-end path. -/
def secPassword : CoreSecret :=
  { secEmpty with Data := [("password", bytesOfString "hunter2")] }

/-- The outcome of reconciling `envOk`. -/
def outOk : ReconcileOutcome :=
  { requeue := true, err := none, vaultReadCalled := true,
    loginAttempted := true, createCalled := true,
    createdSecret := some secPassword }

/-- The outcome of reconciling `envTokenFail`. -/
def outTokenFail : ReconcileOutcome :=
  { requeue := true, err := none, vaultReadCalled := true,
    loginAttempted := false, createCalled := true,
    createdSecret := some secEmpty }

def createFailMsg : String := "secrets is forbidden"

/-- Reconcile environment: fetch succeeds but `r.Client.Create` fails. -/
def envCreateFail : ReconcileEnv :=
  { envOk with createErr := some createFailMsg }

/-- The outcome of reconciling `envCreateFail`. -/
def outCreateFail : ReconcileOutcome :=
  { requeue := false, err := some (.createFail createFailMsg),
    vaultReadCalled := true, loginAttempted := true, createCalled := true,
    createdSecret := some secPassword }

/-- A config with an authentication method other than `jwt`. -/
def configToken : VaultConfig :=
  { reconcileConfig vs0 with AuthMethod := "token" }

/-- The string-to-string sub-mapping of the spec §8 data-mapping example. -/
def strm0 : List (String × String) := [("user", "alice"), ("pass", "s3cret")]

/-- The payload `{data: {"user": "alice", "pass": "s3cret"}}`. -/
def payload0 : Payload :=
  [("data", GoValue.strMap (strm0.map (fun kv => (kv.1, GoValue.str kv.2))))]

/-- A well-shaped one-entry payload `{data: {"a": "b"}}`. -/
def payloadGood : Payload := [("data", GoValue.strMap [("a", GoValue.str "b")])]

/-- A payload is well shaped for `SecretMake` when every value stored under the
key `"data"` is a string-keyed map all of whose values are strings — exactly
the shapes on which the two unchecked type assertions succeed. -/
def dataShapeOk (p : Payload) : Prop :=
  ∀ kv ∈ p, kv.1 = "data" →
    ∃ m, kv.2 = GoValue.strMap m ∧ ∀ kv2 ∈ m, ∃ s, kv2.2 = GoValue.str s

/-! ## Helper lemmas -/

/-- `SecretMake` literally ends in `return s, nil`: whenever it returns, the
error component is `nil`. -/
theorem secretMake_snd_eq_none (es : VaultSecret) (p : Option Payload)
    (res : CoreSecret × Option String) (h : SecretMake es p = .ok res) :
    res.2 = none := by
  unfold SecretMake at h
  cases hd : secretMakeData p <;> rw [hd] at h
  · exact absurd h (by simp)
  · exact (PanicOr.ok.injEq _ _).mp h ▸ rfl

/-- If the inner loop of `SecretMake` completes, every inner value was a
string (otherwise the `vv.(string)` assertion would have panicked). -/
theorem secretMakeInner_ok_shape (inner : List (String × GoValue)) :
    ∀ acc r, secretMakeInner acc inner = .ok r →
      ∀ kv ∈ inner, ∃ s, kv.2 = GoValue.str s := by
  induction inner with
  | nil => intro acc r _ kv hkv; simp at hkv
  | cons hd tl ih =>
    intro acc r h kv hkv
    obtain ⟨kk, vv⟩ := hd
    cases vv with
    | str s =>
      rcases List.mem_cons.mp hkv with hkv | hkv
      · exact ⟨s, by rw [hkv]⟩
      · exact ih _ r (by simpa [secretMakeInner] using h) kv hkv
    | strMap m => simp [secretMakeInner] at h
    | other => simp [secretMakeInner] at h

/-- Unfolding: a `"data"` entry whose inner loop completes continues the
outer loop with the accumulated map. -/
theorem secretMakeOuter_cons_data_ok (acc : List (String × List Nat))
    (inner : List (String × GoValue)) (rest : Payload)
    (acc2 : List (String × List Nat)) (hi : secretMakeInner acc inner = .ok acc2) :
    secretMakeOuter acc (("data", GoValue.strMap inner) :: rest) =
      secretMakeOuter acc2 rest := by
  simp [secretMakeOuter, hi]

/-- Unfolding: a `"data"` entry whose inner loop panics propagates the panic. -/
theorem secretMakeOuter_cons_data_panic (acc : List (String × List Nat))
    (inner : List (String × GoValue)) (rest : Payload)
    (hi : secretMakeInner acc inner = .panicked) :
    secretMakeOuter acc (("data", GoValue.strMap inner) :: rest) = .panicked := by
  simp [secretMakeOuter, hi]

/-- Unfolding: a `"data"` entry holding a string panics (failed assertion
`v.(map[string]interface{})`). -/
theorem secretMakeOuter_cons_data_str (acc : List (String × List Nat))
    (s : String) (rest : Payload) :
    secretMakeOuter acc (("data", GoValue.str s) :: rest) = .panicked := by
  simp [secretMakeOuter]

/-- Unfolding: a `"data"` entry holding a non-map, non-string value panics. -/
theorem secretMakeOuter_cons_data_other (acc : List (String × List Nat))
    (rest : Payload) :
    secretMakeOuter acc (("data", GoValue.other) :: rest) = .panicked := by
  simp [secretMakeOuter]

/-- Unfolding: an entry with a key other than `"data"` is skipped. -/
theorem secretMakeOuter_cons_ne (acc : List (String × List Nat)) (k : String)
    (v : GoValue) (rest : Payload) (hk : k ≠ "data") :
    secretMakeOuter acc ((k, v) :: rest) = secretMakeOuter acc rest := by
  simp [secretMakeOuter, hk]

/-- If the outer loop of `SecretMake` completes, the payload was well shaped
(otherwise one of the type assertions would have panicked). -/
theorem secretMakeOuter_ok_shape (p : Payload) :
    ∀ acc r, secretMakeOuter acc p = .ok r → dataShapeOk p := by
  induction p with
  | nil => intro acc r _ kv hkv; simp at hkv
  | cons hd tl ih =>
    intro acc r h
    obtain ⟨k, v⟩ := hd
    by_cases hk : k = "data"
    · subst hk
      cases v with
      | str s => rw [secretMakeOuter_cons_data_str] at h; exact absurd h (by simp)
      | other => rw [secretMakeOuter_cons_data_other] at h; exact absurd h (by simp)
      | strMap inner =>
        cases hi : secretMakeInner acc inner with
        | panicked =>
          rw [secretMakeOuter_cons_data_panic acc inner tl hi] at h
          exact absurd h (by simp)
        | ok acc2 =>
          rw [secretMakeOuter_cons_data_ok acc inner tl acc2 hi] at h
          intro kv hkv hdata
          rcases List.mem_cons.mp hkv with hkv | hkv
          · exact hkv ▸ ⟨inner, rfl, secretMakeInner_ok_shape inner acc acc2 hi⟩
          · exact ih acc2 r h kv hkv hdata
    · intro kv hkv hdata
      rcases List.mem_cons.mp hkv with hkv | hkv
      · exact absurd (by rw [hkv] at hdata; exact hdata) hk
      · exact ih acc r (by rwa [secretMakeOuter_cons_ne acc k v tl hk] at h) kv hkv hdata

/-- Lookup skips an appended prefix in which the key is absent. -/
theorem lookup_append_right {β : Type} (l₁ l₂ : List (String × β)) (k : String)
    (h : l₁.lookup k = none) : (l₁ ++ l₂).lookup k = l₂.lookup k := by
  induction l₁ with
  | nil => simp
  | cons hd tl ih =>
    obtain ⟨a, b⟩ := hd
    cases hbeq : k == a with
    | true => simp [List.lookup, hbeq] at h
    | false =>
      simp only [List.cons_append, List.lookup, hbeq] at h ⊢
      exact ih h

/-- Go map assignment appends when the key is absent. -/
theorem mapAssign_absent (m : List (String × List Nat)) (k : String)
    (v : List Nat) (h : m.lookup k = none) : mapAssign m k v = m ++ [(k, v)] := by
  simp [mapAssign, h]

/-- The inner loop of `SecretMake` on an all-string sub-mapping with distinct
keys appends, in order, one byte entry per inner entry. -/
theorem secretMakeInner_str (strm : List (String × String)) :
    ∀ acc, (∀ kv ∈ strm, acc.lookup kv.1 = none) →
      (strm.map Prod.fst).Nodup →
      secretMakeInner acc (strm.map (fun kv => (kv.1, GoValue.str kv.2))) =
        .ok (acc ++ strm.map (fun kv => (kv.1, bytesOfString kv.2))) := by
  induction strm with
  | nil => intro acc _ _; simp [secretMakeInner]
  | cons hd tl ih =>
    intro acc hdisj hnodup
    obtain ⟨k, s⟩ := hd
    have hk : acc.lookup k = none := hdisj (k, s) (by simp)
    rw [List.map_cons] at hnodup
    obtain ⟨hknotin, htl⟩ := List.nodup_cons.mp hnodup
    simp only [List.map_cons, secretMakeInner]
    rw [mapAssign_absent acc k (bytesOfString s) hk]
    rw [ih (acc ++ [(k, bytesOfString s)]) ?_ htl]
    · simp
    · intro kv hkv
      have h1 : acc.lookup kv.1 = none := hdisj kv (by simp [hkv])
      have h2 : kv.1 ≠ k := by
        intro hEq
        exact hknotin (hEq ▸ List.mem_map.mpr ⟨kv, hkv, rfl⟩)
      rw [lookup_append_right acc [(k, bytesOfString s)] kv.1 h1]
      simp [List.lookup, beq_eq_false_iff_ne.mpr h2]

/-- The outer loop returns its accumulator unchanged when no key is `"data"`. -/
theorem secretMakeOuter_nodata (p : Payload) :
    ∀ acc, "data" ∉ p.map Prod.fst → secretMakeOuter acc p = .ok acc := by
  induction p with
  | nil => intro acc _; rfl
  | cons hd tl ih =>
    intro acc hmem
    obtain ⟨k, v⟩ := hd
    have hk : k ≠ "data" := by
      intro hEq; exact hmem (by simp [hEq])
    rw [secretMakeOuter_cons_ne acc k v tl hk]
    exact ih acc (fun hc => hmem (by simp; right; simpa using hc))

/-- The outer loop of `SecretMake` on a duplicate-free payload whose `"data"`
entry completes the inner loop returns exactly the inner loop's result. -/
theorem secretMakeOuter_data_ok (p : Payload) :
    ∀ (inner : List (String × GoValue)) (acc r : List (String × List Nat)),
      (p.map Prod.fst).Nodup →
      p.lookup "data" = some (GoValue.strMap inner) →
      secretMakeInner acc inner = .ok r →
      secretMakeOuter acc p = .ok r := by
  induction p with
  | nil => intro inner acc r _ hl _; simp at hl
  | cons hd tl ih =>
    intro inner acc r hnodup hl hi
    obtain ⟨k, v⟩ := hd
    by_cases hk : k = "data"
    · subst hk
      obtain rfl : v = GoValue.strMap inner := by simpa [List.lookup] using hl
      rw [secretMakeOuter_cons_data_ok acc inner tl r hi]
      rw [List.map_cons] at hnodup
      have hnotin : "data" ∉ tl.map Prod.fst := (List.nodup_cons.mp hnodup).1
      exact secretMakeOuter_nodata tl r hnotin
    · have hl2 : tl.lookup "data" = some (GoValue.strMap inner) := by
        simpa [List.lookup, beq_eq_false_iff_ne.mpr (Ne.symm hk)] using hl
      rw [List.map_cons] at hnodup
      have htl : (tl.map Prod.fst).Nodup := (List.nodup_cons.mp hnodup).2
      rw [secretMakeOuter_cons_ne acc k v tl hk]
      exact ih inner acc r htl hl2 hi

/-- `Reconcile` on the child-absent path, when `SecretMake` returns: one fetch,
one `SecretMake`, one create; requeue and error determined by the create
result. -/
theorem reconcile_notFound_create (env : ReconcileEnv) (vs : VaultSecret)
    (msg : String) (d : List (String × List Nat))
    (h1 : env.getVaultSecret = .ok vs)
    (h2 : env.getChildSecret = .error (.notFound msg))
    (h3 : secretMakeData (reconcileSecData vs env.vault) = .ok d) :
    Reconcile env = .ok
      { requeue := env.createErr.isNone,
        err := env.createErr.map RecErr.createFail,
        vaultReadCalled := true,
        loginAttempted := (VaultReadSecret (reconcileConfig vs) env.vault).loginAttempted,
        createCalled := true,
        createdSecret := some
          { Name := vs.Name, Namespace := vs.Namespace,
            Annotations := [(vs.APIVersion, vs.Kind)], Data := d,
            OwnerRef := some (setControllerReference vs) } } := by
  unfold Reconcile SecretMake
  rw [h1, h2]
  simp only [h3]
  cases env.createErr <;> rfl

/-- `Reconcile` on the child-absent path, when `SecretMake` panics. -/
theorem reconcile_notFound_panic (env : ReconcileEnv) (vs : VaultSecret)
    (msg : String)
    (h1 : env.getVaultSecret = .ok vs)
    (h2 : env.getChildSecret = .error (.notFound msg))
    (h3 : secretMakeData (reconcileSecData vs env.vault) = .panicked) :
    Reconcile env = .panicked := by
  unfold Reconcile SecretMake
  rw [h1, h2]
  simp only [h3]

/-! ## Claim theorems -/

/-- C1: for every Request whose child Secret lookup succeeds (a Materialized
Secret already exists), `Reconcile` terminates successfully with no requeue,
never invokes `VaultReadSecret` (so no remote fetch or authentication), and
never calls create. -/
theorem c1_existing_secret_noop (env : ReconcileEnv) (vs : VaultSecret)
    (h1 : env.getVaultSecret = .ok vs)
    (h2 : env.getChildSecret = .ok ()) :
    Reconcile env = .ok
      { requeue := false, err := none, vaultReadCalled := false,
        loginAttempted := false, createCalled := false, createdSecret := none } := by
  unfold Reconcile
  rw [h1, h2]

/-- C1 witness: the no-op outcome at the concrete environment `envFound`. -/
theorem c1_existing_secret_noop_witness :
    Reconcile envFound = .ok
      { requeue := false, err := none, vaultReadCalled := false,
        loginAttempted := false, createCalled := false, createdSecret := none } :=
  c1_existing_secret_noop envFound vs0 rfl rfl

/-- C2 counterexample: in `envTokenFail` the fetch fails with an
authentication-class error (the identity-token file read fails), yet
`Reconcile` returns no error at all and still calls create — the claim that
the auth error is surfaced instead of continuing to create is false. -/
theorem c2_counterexample :
    (VaultReadSecret (reconcileConfig vs0) envTokenFail.vault).result
        = .error (.tokenRead tokenReadMsg)
    ∧ (FetchErr.tokenRead tokenReadMsg).isAuthClass = true
    ∧ Reconcile envTokenFail = .ok outTokenFail
    ∧ outTokenFail.err = none
    ∧ outTokenFail.createCalled = true :=
  ⟨rfl, rfl, by decide, rfl, rfl⟩

/-- C2 (amended): when the fetch step fails with an authentication-class
error, `Reconcile` does not surface that error: it is only logged, and
reconciliation proceeds to create the Materialized Secret with empty data,
returning the outcome of the create call instead. -/
theorem c2_auth_error_logged_and_create_proceeds (env : ReconcileEnv)
    (vs : VaultSecret) (msg : String) (e : FetchErr)
    (h1 : env.getVaultSecret = .ok vs)
    (h2 : env.getChildSecret = .error (.notFound msg))
    (h3 : (VaultReadSecret (reconcileConfig vs) env.vault).result = .error e)
    (_h4 : e.isAuthClass = true) :
    Reconcile env = .ok
      { requeue := env.createErr.isNone,
        err := env.createErr.map RecErr.createFail,
        vaultReadCalled := true,
        loginAttempted := (VaultReadSecret (reconcileConfig vs) env.vault).loginAttempted,
        createCalled := true,
        createdSecret := some
          { Name := vs.Name, Namespace := vs.Namespace,
            Annotations := [(vs.APIVersion, vs.Kind)], Data := [],
            OwnerRef := some (setControllerReference vs) } } := by
  have hsd : reconcileSecData vs env.vault = none := by
    unfold reconcileSecData; rw [h3]
  exact reconcile_notFound_create env vs msg [] h1 h2 (by rw [hsd]; rfl)

/-- C2 (amended) witness: the concrete token-read failure environment. -/
theorem c2_auth_error_logged_witness :
    Reconcile envTokenFail = .ok
      { requeue := envTokenFail.createErr.isNone,
        err := envTokenFail.createErr.map RecErr.createFail,
        vaultReadCalled := true,
        loginAttempted :=
          (VaultReadSecret (reconcileConfig vs0) envTokenFail.vault).loginAttempted,
        createCalled := true,
        createdSecret := some
          { Name := vs0.Name, Namespace := vs0.Namespace,
            Annotations := [(vs0.APIVersion, vs0.Kind)], Data := [],
            OwnerRef := some (setControllerReference vs0) } } :=
  c2_auth_error_logged_and_create_proceeds envTokenFail vs0 notFoundMsg
    (.tokenRead tokenReadMsg) rfl rfl rfl rfl

/-- C3: when the child Secret is absent and `VaultReadSecret` returns an
error, `Reconcile` does not return that error: it logs it, continues with a
nil payload, and (the create call succeeding) creates a Materialized Secret
whose data map is empty, returning success with requeue set. -/
theorem c3_fetch_error_creates_empty_secret (env : ReconcileEnv)
    (vs : VaultSecret) (msg : String) (e : FetchErr)
    (h1 : env.getVaultSecret = .ok vs)
    (h2 : env.getChildSecret = .error (.notFound msg))
    (h3 : (VaultReadSecret (reconcileConfig vs) env.vault).result = .error e)
    (h4 : env.createErr = none) :
    Reconcile env = .ok
      { requeue := true, err := none,
        vaultReadCalled := true,
        loginAttempted := (VaultReadSecret (reconcileConfig vs) env.vault).loginAttempted,
        createCalled := true,
        createdSecret := some
          { Name := vs.Name, Namespace := vs.Namespace,
            Annotations := [(vs.APIVersion, vs.Kind)], Data := [],
            OwnerRef := some (setControllerReference vs) } } := by
  have hsd : reconcileSecData vs env.vault = none := by
    unfold reconcileSecData; rw [h3]
  have hc := reconcile_notFound_create env vs msg [] h1 h2 (by rw [hsd]; rfl)
  rw [h4] at hc
  simpa using hc

/-- C3 witness: the concrete token-read failure environment creates the
empty-data Secret and requeues. -/
theorem c3_fetch_error_creates_empty_secret_witness :
    Reconcile envTokenFail = .ok
      { requeue := true, err := none,
        vaultReadCalled := true,
        loginAttempted :=
          (VaultReadSecret (reconcileConfig vs0) envTokenFail.vault).loginAttempted,
        createCalled := true,
        createdSecret := some
          { Name := vs0.Name, Namespace := vs0.Namespace,
            Annotations := [(vs0.APIVersion, vs0.Kind)], Data := [],
            OwnerRef := some (setControllerReference vs0) } } :=
  c3_fetch_error_creates_empty_secret envTokenFail vs0 notFoundMsg
    (.tokenRead tokenReadMsg) rfl rfl rfl rfl

/-- C5: whenever `Reconcile` returns, the requeue flag is set exactly when
the create call was made and succeeded; and when the create call fails,
`Reconcile` returns that create error with the requeue flag unset. -/
theorem c5_requeue_iff_create_success (env : ReconcileEnv)
    (o : ReconcileOutcome) (h : Reconcile env = .ok o) :
    (o.requeue = true ↔ o.createCalled = true ∧ env.createErr = none)
    ∧ (∀ m, o.createCalled = true → env.createErr = some m →
        o.err = some (.createFail m) ∧ o.requeue = false) := by
  cases h1 : env.getVaultSecret with
  | error e =>
    unfold Reconcile at h
    rw [h1] at h
    cases e with
    | notFound m =>
      rw [PanicOr.ok.injEq] at h
      subst h
      simp
    | other m =>
      rw [PanicOr.ok.injEq] at h
      subst h
      simp
  | ok vs =>
    cases h2 : env.getChildSecret with
    | ok u =>
      unfold Reconcile at h
      rw [h1, h2] at h
      rw [PanicOr.ok.injEq] at h
      subst h
      simp
    | error e =>
      cases e with
      | other m =>
        unfold Reconcile at h
        rw [h1, h2] at h
        rw [PanicOr.ok.injEq] at h
        subst h
        simp
      | notFound m =>
        cases hsd : secretMakeData (reconcileSecData vs env.vault) with
        | panicked =>
          rw [reconcile_notFound_panic env vs m h1 h2 hsd] at h
          exact absurd h (by simp)
        | ok d =>
          rw [reconcile_notFound_create env vs m d h1 h2 hsd] at h
          rw [PanicOr.ok.injEq] at h
          subst h
          cases h4 : env.createErr with
          | none => simp
          | some m0 =>
            refine ⟨by simp, ?_⟩
            intro m' _ hm
            obtain rfl : m0 = m' := Option.some_inj.mp hm
            simp

/-- C5 witness: the successful end-to-end environment `envOk`. -/
theorem c5_requeue_iff_create_success_witness :
    (outOk.requeue = true ↔ outOk.createCalled = true ∧ envOk.createErr = none)
    ∧ (∀ m, outOk.createCalled = true → envOk.createErr = some m →
        outOk.err = some (.createFail m) ∧ outOk.requeue = false) :=
  c5_requeue_iff_create_success envOk outOk (by decide)

/-- C6: for every config whose auth method differs from `jwt` (the client
having been constructed), `VaultReadSecret` returns the "unsupported Auth
method" error with neither the login nor the read exchange attempted; and
for every Request, a derived config with a non-`jwt` method never attempts a
login (vacuously: `Reconcile` hardcodes the method to `jwt`). -/
theorem c6_unsupported_auth_method (config : VaultConfig) (env : VaultEnv)
    (h1 : env.newClientErr = none)
    (h2 : config.AuthMethod ≠ defaultJWTAuthMethod) :
    ((VaultReadSecret config env).result
        = .error (.unsupportedAuthMethod config.AuthMethod)
      ∧ (VaultReadSecret config env).loginAttempted = false
      ∧ (VaultReadSecret config env).readAttempted = false
      ∧ (FetchErr.unsupportedAuthMethod config.AuthMethod).message
          = "unsupported Auth method: " ++ config.AuthMethod)
    ∧ (∀ vs venv, (reconcileConfig vs).AuthMethod ≠ defaultJWTAuthMethod →
        (VaultReadSecret (reconcileConfig vs) venv).loginAttempted = false) := by
  constructor
  · unfold VaultReadSecret
    rw [h1]
    simp [h2, FetchErr.message]
  · intro vs venv hvs
    exact absurd rfl hvs

/-- C6 witness: the config with auth method `"token"`. -/
theorem c6_unsupported_auth_method_witness :
    (VaultReadSecret configToken venvOk).result
        = .error (.unsupportedAuthMethod configToken.AuthMethod)
    ∧ (VaultReadSecret configToken venvOk).loginAttempted = false
    ∧ (VaultReadSecret configToken venvOk).readAttempted = false
    ∧ (FetchErr.unsupportedAuthMethod configToken.AuthMethod).message
        = "unsupported Auth method: " ++ configToken.AuthMethod :=
  (c6_unsupported_auth_method configToken venvOk rfl (by decide)).1

/-- C7: every Secret `SecretMake` returns carries the controller owner
reference resolving back to the originating VaultSecret, exactly one
annotation mapping the VaultSecret's API version to its kind, and reuses the
VaultSecret's name and namespace. -/
theorem c7_ownership_and_annotations (es : VaultSecret) (p : Option Payload)
    (res : CoreSecret × Option String) (h : SecretMake es p = .ok res) :
    res.1.OwnerRef = some
      { APIVersion := es.APIVersion, Kind := es.Kind, Name := es.Name,
        Controller := true }
    ∧ res.1.Annotations = [(es.APIVersion, es.Kind)]
    ∧ res.1.Name = es.Name
    ∧ res.1.Namespace = es.Namespace := by
  unfold SecretMake at h
  cases hd : secretMakeData p <;> rw [hd] at h
  · exact absurd h (by simp)
  · rw [PanicOr.ok.injEq] at h
    subst h
    exact ⟨rfl, rfl, rfl, rfl⟩

/-- C7 witness: the nil-payload output for the concrete VaultSecret `vs0`. -/
theorem c7_ownership_and_annotations_witness :
    (secEmpty, (none : Option String)).1.OwnerRef = some
      { APIVersion := vs0.APIVersion, Kind := vs0.Kind, Name := vs0.Name,
        Controller := true }
    ∧ (secEmpty, (none : Option String)).1.Annotations
        = [(vs0.APIVersion, vs0.Kind)]
    ∧ (secEmpty, (none : Option String)).1.Name = vs0.Name
    ∧ (secEmpty, (none : Option String)).1.Namespace = vs0.Namespace :=
  c7_ownership_and_annotations vs0 none (secEmpty, none) rfl

/-- C8: the identity-token file is the primary override
`KUBERNETES_SERVICE_ACCOUNT_TOKEN` when non-empty, else the secondary
override `VAULT_JWT_FILE` when non-empty, else the fixed default path; and a
failure reading the chosen file is returned by `VaultReadSecret` as that
read error. -/
theorem c8_jwt_file_resolution (config : VaultConfig) (env : VaultEnv) :
    (env.getenv "KUBERNETES_SERVICE_ACCOUNT_TOKEN" ≠ "" →
      jwtFileChoice env = env.getenv "KUBERNETES_SERVICE_ACCOUNT_TOKEN")
    ∧ (env.getenv "KUBERNETES_SERVICE_ACCOUNT_TOKEN" = "" →
        env.getenv "VAULT_JWT_FILE" ≠ "" →
        jwtFileChoice env = env.getenv "VAULT_JWT_FILE")
    ∧ (env.getenv "KUBERNETES_SERVICE_ACCOUNT_TOKEN" = "" →
        env.getenv "VAULT_JWT_FILE" = "" →
        jwtFileChoice env = defaultJWTFile)
    ∧ (env.newClientErr = none → config.AuthMethod = defaultJWTAuthMethod →
        ∀ e, env.readFile (jwtFileChoice env) = .error e →
          (VaultReadSecret config env).result = .error (.tokenRead e)) := by
  refine ⟨?_, ?_, ?_, ?_⟩
  · intro h; simp [jwtFileChoice, h]
  · intro h1 h2; simp [jwtFileChoice, h1, h2]
  · intro h1 h2; simp [jwtFileChoice, h1, h2]
  · intro hc hm e hr
    unfold VaultReadSecret
    rw [hc]
    simp [hm, hr]

/-- C8 witness: both overrides empty, so the default path is chosen, and its
read failure is returned. -/
theorem c8_jwt_file_resolution_witness :
    jwtFileChoice venvTokenFail = defaultJWTFile
    ∧ (VaultReadSecret (reconcileConfig vs0) venvTokenFail).result
        = .error (.tokenRead tokenReadMsg) :=
  ⟨(c8_jwt_file_resolution (reconcileConfig vs0) venvTokenFail).2.2.1 rfl rfl,
   (c8_jwt_file_resolution (reconcileConfig vs0) venvTokenFail).2.2.2 rfl rfl
     tokenReadMsg rfl⟩

/-- C4: for every payload (with map-like duplicate-free keys) whose `"data"`
entry maps string keys to string values, `SecretMake` produces a Secret whose
data map holds exactly those keys, each mapped to the UTF-8 bytes of its
string value, and entries outside the `"data"` entry contribute nothing. -/
theorem c4_data_mapping (es : VaultSecret) (p : Payload)
    (strm : List (String × String))
    (hp : (p.map Prod.fst).Nodup)
    (hdata : p.lookup "data"
        = some (GoValue.strMap (strm.map (fun kv => (kv.1, GoValue.str kv.2)))))
    (hs : (strm.map Prod.fst).Nodup) :
    SecretMake es (some p)
      = .ok ({ Name := es.Name, Namespace := es.Namespace,
               Annotations := [(es.APIVersion, es.Kind)],
               Data := strm.map (fun kv => (kv.1, bytesOfString kv.2)),
               OwnerRef := some (setControllerReference es) }, none) := by
  have hin := secretMakeInner_str strm [] (fun kv _ => rfl) hs
  have hout := secretMakeOuter_data_ok p
      (strm.map (fun kv => (kv.1, GoValue.str kv.2))) []
      (strm.map (fun kv => (kv.1, bytesOfString kv.2))) hp hdata
      (by simpa using hin)
  unfold SecretMake
  rw [show secretMakeData (some p) = secretMakeOuter [] p from rfl, hout]

/-- C4 witness: the payload `{data: {"user": "alice", "pass": "s3cret"}}`
yields exactly `{"user": bytes("alice"), "pass": bytes("s3cret")}`. -/
theorem c4_data_mapping_witness :
    SecretMake vs0 (some payload0)
      = .ok ({ Name := vs0.Name, Namespace := vs0.Namespace,
               Annotations := [(vs0.APIVersion, vs0.Kind)],
               Data := [("user", bytesOfString "alice"),
                        ("pass", bytesOfString "s3cret")],
               OwnerRef := some (setControllerReference vs0) }, none) :=
  c4_data_mapping vs0 payload0 strm0 (by decide) rfl (by decide)

/-- C9: `SecretMake` is not total on payload shapes — a `"data"` entry that
is not a map, or whose inner values are not strings, panics via the unchecked
type assertions — and it returns normally only when every `"data"` entry is a
string-keyed map of strings. -/
theorem c9_secretMake_not_total :
    SecretMake vs0 (some [("data", GoValue.str "oops")]) = .panicked
    ∧ SecretMake vs0 (some [("data", GoValue.strMap [("k", GoValue.other)])])
        = .panicked
    ∧ ∀ es p res, SecretMake es (some p) = .ok res → dataShapeOk p := by
  refine ⟨rfl, rfl, ?_⟩
  intro es p res h
  unfold SecretMake at h
  cases hd : secretMakeData (some p) <;> rw [hd] at h
  · exact absurd h (by simp)
  · exact secretMakeOuter_ok_shape p [] _ (by simpa [secretMakeData] using hd)

/-- C9 witness: the well-shaped payload `{data: {"a": "b"}}` is accepted, so
its shape satisfies the returned-normally characterization. -/
theorem c9_secretMake_not_total_witness : dataShapeOk payloadGood :=
  c9_secretMake_not_total.2.2 vs0 payloadGood
    ({ Name := vs0.Name, Namespace := vs0.Namespace,
       Annotations := [(vs0.APIVersion, vs0.Kind)],
       Data := [("a", bytesOfString "b")],
       OwnerRef := some (setControllerReference vs0) }, none) rfl

/-- C10: on every input on which it returns, `SecretMake` returns a nil
error; consequently the `Reconcile` branch handling a `SecretMake` failure is
unreachable — no returned outcome ever carries a `secretMakeFail` error. -/
theorem c10_secretMake_error_unreachable :
    (∀ es p res, SecretMake es p = .ok res → res.2 = none)
    ∧ ∀ env o m, Reconcile env = .ok o → o.err ≠ some (.secretMakeFail m) := by
  refine ⟨secretMake_snd_eq_none, ?_⟩
  intro env o m h
  cases h1 : env.getVaultSecret with
  | error e =>
    unfold Reconcile at h
    rw [h1] at h
    cases e with
    | notFound m2 => rw [PanicOr.ok.injEq] at h; subst h; simp
    | other m2 => rw [PanicOr.ok.injEq] at h; subst h; simp
  | ok vs =>
    cases h2 : env.getChildSecret with
    | ok u =>
      unfold Reconcile at h
      rw [h1, h2] at h
      rw [PanicOr.ok.injEq] at h
      subst h
      simp
    | error e =>
      cases e with
      | other m2 =>
        unfold Reconcile at h
        rw [h1, h2] at h
        rw [PanicOr.ok.injEq] at h
        subst h
        simp
      | notFound m2 =>
        cases hsd : secretMakeData (reconcileSecData vs env.vault) with
        | panicked =>
          rw [reconcile_notFound_panic env vs m2 h1 h2 hsd] at h
          exact absurd h (by simp)
        | ok d =>
          rw [reconcile_notFound_create env vs m2 d h1 h2 hsd] at h
          rw [PanicOr.ok.injEq] at h
          subst h
          cases env.createErr <;> simp

/-- C10 witness: the end-to-end outcome never carries a `secretMakeFail`
error. -/
theorem c10_secretMake_error_unreachable_witness :
    outOk.err ≠ some (RecErr.secretMakeFail "boom") :=
  c10_secretMake_error_unreachable.2 envOk outOk "boom" (by decide)
